import Mathlib

/-!
Shallow embedding of the scraper in `Phase3.py` (books.toscrape.com crawler).

The Python code queries a parsed HTML tree through a fixed set of
BeautifulSoup lookups.  We embed each page as a record holding exactly the
results of those lookups (an `Option` is `none` when the corresponding
`find` returned `None` / the attribute was missing); all `get_text(strip=True)`
results are modelled as the already-stripped strings.  Library collaborators
(`requests.get`, `urllib.parse.urljoin`) are parameters of the embedded
functions.  Python exceptions that the code catches are modelled with
`Option`: a `none` result of an inner step is the raised-and-caught exception.
-/

/-- Value stored in the `book_data` dict: Python is dynamically typed and
`quantity_available` holds either an `int` (parsed from the availability
regex, hence nonnegative) or a raw string. -/
inductive FieldVal where
  | S : String → FieldVal
  | I : Nat → FieldVal
deriving DecidableEq, Repr

/-- The `book_data` dictionary built by `scrape_book_details_simple`. -/
structure BookData where
  product_page_url : String
  universal_product_code : String
  book_title : String
  price_including_tax : String
  price_excluding_tax : String
  quantity_available : FieldVal
  product_description : String
  category : String
  review_rating : String
  image_url : String
deriving DecidableEq, Repr

/-- One `tr` of the product-information table: `row.find('th')` and
`row.find('td')` texts (`none` when the cell is absent). -/
structure TableRow where
  th : Option String
  td : Option String
deriving DecidableEq, Repr

/-- Result of the BeautifulSoup queries `scrape_book_details_simple` performs
on a detail page.

* `h1` — text of `soup.find('h1')`.
* `product_info_table` — rows of `soup.find('table', class_='table table-striped')`.
* `availability` — text of `soup.find('p', class_='instock availability')`.
* `product_description_div` — `soup.find('div', id='product_description')`;
  the inner `Option` is the text of its `find_next_sibling('p')`.
* `breadcrumb` — `li` items of `soup.find('ul', class_='breadcrumb')`; each
  item is the text of the `li`'s first `a` (or `none` when it has no anchor).
* `star_rating` — class-token list of the first `p` whose class matches the
  star-rating filter.
* `image_container` — `soup.find('div', class_='item active')`; the middle
  `Option` is its `find('img')`, the inner one that tag's `src` attribute. -/
structure Soup where
  h1 : Option String
  product_info_table : Option (List TableRow)
  availability : Option String
  product_description_div : Option (Option String)
  breadcrumb : Option (List (Option String))
  star_rating : Option (List String)
  image_container : Option (Option (Option String))
deriving DecidableEq, Repr

/-- Python `str.isdigit`-style check for the regex class `\d` (ASCII range). -/
def isAsciiDigit (c : Char) : Bool := '0' ≤ c ∧ c ≤ '9'

/-- Try to match the regex `\((\d+) available\)` at the head of the list:
an opening parenthesis, one or more digits, then the literal
`" available)"`.  Returns the integer value of the digit group. -/
def tryMatchAvail (cs : List Char) : Option Nat :=
  match cs with
  | '(' :: rest =>
    let ds := rest.takeWhile isAsciiDigit
    let rest2 := rest.dropWhile isAsciiDigit
    match ds, rest2 with
    | [], _ => none
    | _ :: _, ' ' :: 'a' :: 'v' :: 'a' :: 'i' :: 'l' :: 'a' :: 'b' :: 'l' :: 'e' :: ')' :: _ =>
      some (ds.foldl (fun a c => a * 10 + (c.toNat - 48)) 0)
    | _ :: _, _ => none
  | _ => none

/-- Leftmost-match search of `re.search(r'\((\d+) available\)', stock_text)`:
scan positions left to right, return the first digit group matched. -/
def searchAvail : List Char → Option Nat
  | [] => none
  | c :: rest =>
    match tryMatchAvail (c :: rest) with
    | some n => some n
    | none => searchAvail rest

/-- Python `url.split('/catalogue/')[0]`: the part of the string before the
first occurrence of `"/catalogue/"`, or the whole string when absent. -/
def splitBeforeCatalogue : List Char → List Char
  | [] => []
  | c :: rest =>
    match c :: rest with
    | '/' :: 'c' :: 'a' :: 't' :: 'a' :: 'l' :: 'o' :: 'g' :: 'u' :: 'e' :: '/' :: _ => []
    | _ => c :: splitBeforeCatalogue rest

/-- Python `relative_path.replace('../../', '')`: remove every (leftmost,
non-overlapping) occurrence of `"../../"`. -/
def stripDotDots : List Char → List Char
  | '.' :: '.' :: '/' :: '.' :: '.' :: '/' :: rest => stripDotDots rest
  | c :: rest => c :: stripDotDots rest
  | [] => []

/-- The ordered rating vocabulary tested against the class list. -/
def ratingVocab : List String := ["One", "Two", "Three", "Four", "Five"]

/-- The `book_data` dictionary as initialized at the top of
`scrape_book_details_simple`: the page URL and all other entries empty. -/
def initBookData (url : String) : BookData :=
  { product_page_url := url
    universal_product_code := ""
    book_title := ""
    price_including_tax := ""
    price_excluding_tax := ""
    quantity_available := .S ""
    product_description := ""
    category := ""
    review_rating := ""
    image_url := "" }

/-- The header dispatch of the table loop: recognized headers update the
corresponding dict entry, unrecognized ones are ignored. -/
def dispatchHeader (header value : String) (bd : BookData) : BookData :=
  if header = "UPC" then { bd with universal_product_code := value }
  else if header = "Price (incl. tax)" then { bd with price_including_tax := value }
  else if header = "Price (excl. tax)" then { bd with price_excluding_tax := value }
  else bd

/-- The loop over the product-information table rows.  Python reads
`row.find('th').get_text(strip=True)` and `row.find('td').get_text(strip=True)`:
when either cell is absent the attribute access on `None` raises, the outer
`except Exception` catches it and the whole scrape returns `None`; this is the
`none` result. -/
def processTableRows : List TableRow → BookData → Option BookData
  | [], bd => some bd
  | row :: rest, bd =>
    match row.th, row.td with
    | some header, some value => processTableRows rest (dispatchHeader header value bd)
    | _, _ => none

/-- Title step: text of the `h1` when present, otherwise the current value. -/
def titleValue : Option String → String → String
  | some t, _ => t
  | none, dflt => dflt

/-- Quantity step: regex hit gives the parsed `int`, a miss stores the raw
stripped availability text, an absent block keeps the current value. -/
def quantityValue : Option String → FieldVal → FieldVal
  | some stock_text, _ =>
    match searchAvail stock_text.data with
    | some n => .I n
    | none => .S stock_text
  | none, dflt => dflt

/-- Description step: the sibling paragraph's text; the sentinel both when
the `product_description` div is missing and when it has no sibling `p`. -/
def descriptionValue : Option (Option String) → String
  | some (some p) => p
  | some none => "No description found."
  | none => "No description found."

/-- Category step: with at least 3 breadcrumb items, the third item's anchor
text (when that `li` has an anchor); otherwise the current value. -/
def categoryValue : Option (List (Option String)) → String → String
  | some items, dflt =>
    if items.length ≥ 3 then
      match items.getD 2 none with
      | some catText => catText
      | none => dflt
    else dflt
  | none, dflt => dflt

/-- Rating step: first vocabulary word contained in the class list;
`"Unknown"` when a star-rating element exists but no word matches; the
current value when there is no such element. -/
def ratingValue : Option (List String) → String → String
  | some class_list, _ =>
    match ratingVocab.find? (fun cls => class_list.contains cls) with
    | some cls => cls
    | none => "Unknown"
  | none, dflt => dflt

/-- Image step: `url.split('/catalogue/')[0] + '/'` concatenated with the
`src` path after `replace('../../', '')`; the current value when the
container, the `img` tag, or its `src` attribute is missing. -/
def imageValue (url : String) : Option (Option (Option String)) → String → String
  | some (some (some relative_path)), _ =>
    String.mk (splitBeforeCatalogue url.data) ++ "/"
      ++ String.mk (stripDotDots relative_path.data)
  | some (some none), dflt => dflt
  | some none, dflt => dflt
  | none, dflt => dflt

/-- Embedding of `scrape_book_details_simple` after a successful fetch and
parse: field-by-field extraction from the queried elements, starting from a
dict whose string entries are all empty, in the source's assignment order.
The result is `none` exactly when a caught exception makes the Python
function return `None`. -/
def scrape_book_details_simple (url : String) (soup : Soup) : Option BookData :=
  let bd0 := initBookData url
  let bd1 := { bd0 with book_title := titleValue soup.h1 bd0.book_title }
  let afterTable :=
    match soup.product_info_table with
    | some rows => processTableRows rows bd1
    | none => some bd1
  match afterTable with
  | none => none
  | some bd2 =>
    let bd3 := { bd2 with quantity_available := quantityValue soup.availability bd2.quantity_available }
    let bd4 := { bd3 with product_description := descriptionValue soup.product_description_div }
    let bd5 := { bd4 with category := categoryValue soup.breadcrumb bd4.category }
    let bd6 := { bd5 with review_rating := ratingValue soup.star_rating bd5.review_rating }
    let bd7 := { bd6 with image_url := imageValue url soup.image_container bd6.image_url }
    some bd7

/-- Decidable condition under which the table loop raises no exception:
every row (when a table is present) has both a header and a value cell. -/
def rowsOk (soup : Soup) : Bool :=
  match soup.product_info_table with
  | none => true
  | some rows => rows.all fun r => r.th.isSome && r.td.isSome

/-- An anchor tag as the code inspects it: `href` is `none` when the `href`
attribute is missing from `attrs`. -/
structure Anchor where
  href : Option String
deriving DecidableEq, Repr

/-- One `article.product_pod` container of a listing page.  `h3` is
`container.find('h3')`; the inner `Option` is that heading's `find('a')`. -/
structure Pod where
  h3 : Option (Option Anchor)
deriving DecidableEq, Repr

/-- The `li.next` pagination element; `a` is its `find('a')`. -/
structure NextLi where
  a : Option Anchor
deriving DecidableEq, Repr

/-- Result of the queries `get_all_book_links_in_category` performs on one
listing page: `sect` is `soup.find('section')` with its
`find_all('article', class_='product_pod')`, `next` is
`soup.find('li', class_='next')`. -/
structure ListingPage where
  sect : Option (List Pod)
  next : Option NextLi
deriving DecidableEq, Repr

/-- The `for container in book_containers` loop.  `container.find('h3')`
returning `None` makes `.find('a')` raise (flag `true`: the exception breaks
the page loop, keeping the links appended so far); a missing anchor or a
missing `href` attribute merely skips the container.  Each kept link is
resolved with `urljoin` against the current page URL. -/
def collectPodLinks (urljoin : String → String → String) (page_url : String) :
    List Pod → List String × Bool
  | [] => ([], false)
  | pod :: rest =>
    match pod.h3 with
    | none => ([], true)
    | some none => collectPodLinks urljoin page_url rest
    | some (some a) =>
      match a.href with
      | none => collectPodLinks urljoin page_url rest
      | some href =>
        let p := collectPodLinks urljoin page_url rest
        (urljoin page_url href :: p.1, p.2)

/-- The `while True` pagination loop of `get_all_book_links_in_category`,
carrying the accumulated `all_book_links`.  `fetch` returns `none` on a
request exception (the loop breaks and the accumulated list is returned).
The loop in the source has no bound; `fuel` only cuts evaluation off, and a
`none` result means the cutoff was reached, never that the loop finished. -/
def get_all_book_links_loop (fetch : String → Option ListingPage)
    (urljoin : String → String → String) :
    Nat → String → List String → Option (List String)
  | 0, _, _ => none
  | fuel + 1, current_page_url, acc =>
    match fetch current_page_url with
    | none => some acc
    | some soup =>
      let collected :=
        match soup.sect with
        | some pods => collectPodLinks urljoin current_page_url pods
        | none => ([], false)
      let acc2 := acc ++ collected.1
      if collected.2 then some acc2
      else
        match soup.next with
        | some nextLi =>
          match nextLi.a with
          | none => some acc2
          | some a =>
            match a.href with
            | none => some acc2
            | some rel =>
              get_all_book_links_loop fetch urljoin fuel (urljoin current_page_url rel) acc2
        | none => some acc2

/-- Embedding of `get_all_book_links_in_category`. -/
def get_all_book_links_in_category (fetch : String → Option ListingPage)
    (urljoin : String → String → String) (fuel : Nat) (category_base_url : String) :
    Option (List String) :=
  get_all_book_links_loop fetch urljoin fuel category_base_url []

/-- An anchor of the sidebar category list: its stripped text and its `href`
attribute (`none` when missing). -/
structure CatAnchor where
  text : String
  href : Option String
deriving DecidableEq, Repr

/-- Result of the queries `get_all_categories_with_links` performs on the
main page: `find('div', class_='side_categories')`, inside it
`find('ul', class_='nav nav-list')`, inside that the nested `find('ul')`,
and that list's `find_all('a')`. -/
structure MainSoup where
  side_categories : Option (Option (Option (List CatAnchor)))
deriving DecidableEq, Repr

/-- The `for link_tag in category_links` loop: each anchor's text is paired
with `urljoin main_url link_tag['href']` and appended.  A missing `href`
raises `KeyError` (`none` result), which the caller's `except` turns into an
empty list. -/
def collectCategories (urljoin : String → String → String) (main_url : String) :
    List CatAnchor → List (String × String) → Option (List (String × String))
  | [], acc => some acc
  | a :: rest, acc =>
    match a.href with
    | none => none
    | some rel => collectCategories urljoin main_url rest (acc ++ [(a.text, urljoin main_url rel)])

/-- Embedding of `get_all_categories_with_links` after a successful fetch of
the main page: missing sidebar structure yields the (still empty) accumulated
list; an exception inside the anchor loop yields a fresh empty list. -/
def get_all_categories_with_links (urljoin : String → String → String)
    (main_url : String) (soup : MainSoup) : List (String × String) :=
  match soup.side_categories with
  | some (some (some anchors)) =>
    match collectCategories urljoin main_url anchors [] with
    | some cats => cats
    | none => []
  | _ => []

/-- Python `csv` QUOTE_MINIMAL policy: a field is quoted iff it contains the
delimiter, the quote character, or a character of the `\r\n` terminator. -/
def needsQuoting (f : List Char) : Bool :=
  f.any fun c => c = ',' || c = '"' || c = '\r' || c = '\n'

/-- Double every quote character (csv `doublequote=True`). -/
def escapeQuotes : List Char → List Char
  | [] => []
  | c :: rest =>
    if c = '"' then '"' :: '"' :: escapeQuotes rest else c :: escapeQuotes rest

/-- Serialize one field as Python's `csv.writer` does under QUOTE_MINIMAL. -/
def writeField (f : List Char) : List Char :=
  if needsQuoting f then '"' :: (escapeQuotes f ++ ['"']) else f

/-- Serialize one record: fields joined by the comma delimiter. -/
def writeRecordChars : List (List Char) → List Char
  | [] => []
  | f :: rest =>
    match rest with
    | [] => writeField f
    | _ :: _ => writeField f ++ ',' :: writeRecordChars rest

/-- Read a quoted field body after its opening quote: a doubled quote is a
literal quote, a single closing quote ends the field. -/
def parseQuoted : List Char → List Char → List Char × List Char
  | [], acc => (acc, [])
  | c :: rest, acc =>
    if c = '"' then
      match rest with
      | c2 :: rest2 =>
        if c2 = '"' then parseQuoted rest2 (acc ++ ['"']) else (acc, rest)
      | [] => (acc, [])
    else parseQuoted rest (acc ++ [c])

/-- Read an unquoted field: everything up to the next delimiter. -/
def parseUnquoted : List Char → List Char × List Char
  | [] => ([], [])
  | c :: rest =>
    if c = ',' then ([], c :: rest)
    else
      let p := parseUnquoted rest
      (c :: p.1, p.2)

/-- Read one field of a record by column position. -/
def parseField : List Char → List Char × List Char
  | [] => ([], [])
  | c :: rest => if c = '"' then parseQuoted rest [] else parseUnquoted (c :: rest)

/-- Read all fields of one record, fuelled (one unit per field). -/
def parseFieldsFuel : Nat → List Char → List (List Char)
  | 0, _ => []
  | fuel + 1, cs =>
    let p := parseField cs
    match p.2 with
    | c :: rest => if c = ',' then p.1 :: parseFieldsFuel fuel rest else [p.1]
    | [] => [p.1]

/-- Re-parse one CSV record into its fields by column position. -/
def parseRecordChars (cs : List Char) : List (List Char) :=
  parseFieldsFuel (cs.length + 1) cs

/-- String-level record serialization. -/
def writeRecord (fs : List String) : String :=
  String.mk (writeRecordChars (fs.map String.data))

/-- String-level record re-parsing. -/
def parseRecord (s : String) : List String :=
  (parseRecordChars s.data).map String.mk

/-- Decimal digit character, `chr(48 + d)`. -/
def decDigit (d : Nat) : Char := Char.ofNat (48 + d)

/-- Decimal expansion used by Python `str(int)` for nonnegative values,
fuelled recursion on the quotient by 10. -/
def natToDecAux : Nat → Nat → List Char
  | 0, _ => []
  | fuel + 1, n =>
    if n < 10 then [decDigit n]
    else natToDecAux fuel (n / 10) ++ [decDigit (n % 10)]

/-- Python `str(n)` for the nonnegative `int` stored in
`quantity_available`. -/
def natToDecimal (n : Nat) : String := String.mk (natToDecAux (n + 1) n)

/-- The string `csv.DictWriter` writes for a dict value: strings verbatim,
the parsed `int` through `str`. -/
def fieldValStr : FieldVal → String
  | .S s => s
  | .I n => natToDecimal n

/-- The `csv_headers` list of `export_books_to_csv`, fixing column order. -/
def csvHeaders : List String :=
  ["product_page_url", "universal_product_code", "book_title",
   "price_including_tax", "price_excluding_tax", "quantity_available",
   "product_description", "category", "review_rating", "image_url"]

/-- A `BookData` dict in `csv_headers` column order, each value as the string
the writer emits. -/
def rowFields (bd : BookData) : List String :=
  [bd.product_page_url, bd.universal_product_code, bd.book_title,
   bd.price_including_tax, bd.price_excluding_tax,
   fieldValStr bd.quantity_available, bd.product_description, bd.category,
   bd.review_rating, bd.image_url]

/-- The CSV record `writer.writerow(row_data)` emits for one book. -/
def rowOf (bd : BookData) : String := writeRecord (rowFields bd)

/-- The CSV record `writer.writeheader()` emits. -/
def headerRow : String := writeRecord csvHeaders

/-- The filename sanitizer of `export_books_to_csv`:
`category_name.replace(' ', '_')` followed by `re.sub(r'[^\w-]', '', …)`.
Python's regex class `\w` is Unicode-aware (non-ASCII word characters such
as accented letters survive the sub); it is modelled here on the ASCII
range only, where it is exactly `[A-Za-z0-9_]`, so this definition agrees
with the program precisely on ASCII category names, and theorems about it
carry an ASCII hypothesis. -/
def clean_category_name (name : String) : String :=
  String.mk (((name.data.map fun c => if c = ' ' then '_' else c).filter
    fun c => c.isAlphanum || c = '_' || c = '-'))

/-- The filename `f"{clean_category_name}_{base_filename}"`. -/
def exportFilename (category_name base_filename : String) : String :=
  clean_category_name category_name ++ "_" ++ base_filename

/-- Embedding of the file effect of `export_books_to_csv` on the target
file.  The file is modelled as its list of CSV records; `none` means the file
does not exist.  A header is written when the file is missing
(`os.path.exists` false) or has size zero; the open in mode `'a'` then
appends one record per book.  Returns the file's new contents. -/
def export_books_to_csv (data : List BookData) (file : Option (List String)) :
    List String :=
  let file_exists := file.isSome
  let write_header := !file_exists || (file.getD []).length == 0
  file.getD [] ++ (if write_header then [headerRow] else []) ++ data.map rowOf

/-- Spec-side reading of the image-path rewrite, for comparison with the
code: strip one leading `"../../"` traversal prefix (leaving any other
occurrence alone) and concatenate the remainder onto the part of the page
URL before `"/catalogue/"` plus a slash. -/
def specImageUrl (url relative_path : String) : String :=
  let remainder :=
    match relative_path.data with
    | '.' :: '.' :: '/' :: '.' :: '.' :: '/' :: rest => rest
    | cs => cs
  String.mk (splitBeforeCatalogue url.data) ++ "/" ++ String.mk remainder

/-- Spec-side reading of the filename sanitizer, for comparison with the
code: replace every whitespace character with an underscore, then remove
every character outside `[A-Za-z0-9_-]`. -/
def specSanitizeCategory (name : String) : String :=
  String.mk ((name.data.map fun c => if c.isWhitespace then '_' else c).filter
    fun c => c.isAlphanum || c = '_' || c = '-')

/-- A fully well-formed product container: a heading with an anchor carrying
an `href`. -/
def mkPod (href : String) : Pod := { h3 := some (some { href := some href }) }

/-- The serialized quantity column consists of ASCII digits only (trivially
true for the string fallback, which serializes verbatim). -/
def qtyDigitsOk : FieldVal → Bool
  | .S _ => true
  | .I n => (natToDecimal n).data.all isAsciiDigit

/-- The page carries a star-rating element none of whose class tokens is a
vocabulary word. -/
def starUnrecognized (soup : Soup) : Bool :=
  match soup.star_rating with
  | some class_list => class_list.all fun c => !(ratingVocab.contains c)
  | none => false

/-- Fixture: a detail page where every queried sub-element is absent. -/
def soupAllAbsent : Soup :=
  { h1 := none, product_info_table := none, availability := none,
    product_description_div := none, breadcrumb := none, star_rating := none,
    image_container := none }

/-- Fixture: a detail page whose markup is complete except that one table
row lacks its header cell. -/
def soupBadRow : Soup :=
  { h1 := some "T"
    product_info_table := some [{ th := none, td := some "v" }]
    availability := some "In stock (5 available)"
    product_description_div := some (some "d")
    breadcrumb := some [some "Home", some "Books", some "Poetry"]
    star_rating := some ["star-rating", "Three"]
    image_container := some (some (some "../../m.jpg")) }

/-- Fixture: a detail page whose star-rating element carries only
unrecognized class tokens. -/
def wSoupUnknown : Soup :=
  { h1 := none, product_info_table := none, availability := none,
    product_description_div := none, breadcrumb := none,
    star_rating := some ["star-rating", "Six"], image_container := none }

/-- Fixture: a detail page whose image path contains a non-leading
`"../../"` occurrence. -/
def cSoupImage : Soup :=
  { h1 := none, product_info_table := none, availability := none,
    product_description_div := none, breadcrumb := none, star_rating := none,
    image_container := some (some (some "a../../b")) }

/-- Fixture: a detail page with an ordinary relative image path. -/
def wSoupImage : Soup :=
  { h1 := none, product_info_table := none, availability := none,
    product_description_div := none, breadcrumb := none, star_rating := none,
    image_container := some (some (some "../../media/i.jpg")) }

/-- Fixture URL containing the catalog-path marker. -/
def cImageUrl : String := "http://x/catalogue/p.html"

/-- Fixture resolver standing in for `urljoin` in witnesses. -/
def wJoin : String → String → String := fun _ rel => rel

/-- Fixture listing page 1: two entries, a next link to `"u2"`. -/
def wPage1 : ListingPage :=
  { sect := some (List.map mkPod ["a", "b"]),
    next := some { a := some { href := some "u2" } } }

/-- Fixture listing page 2: one entry, a next link to `"u3"`. -/
def wPage2 : ListingPage :=
  { sect := some (List.map mkPod ["c"]),
    next := some { a := some { href := some "u3" } } }

/-- Fixture listing page 3: one entry, no next link. -/
def wPage3 : ListingPage :=
  { sect := some (List.map mkPod ["d"]), next := none }

/-- Fixture fetcher for a 3-page category with every fetch succeeding. -/
def wFetch2 : String → Option ListingPage := fun u =>
  if u = "u1" then some wPage1
  else if u = "u2" then some wPage2
  else if u = "u3" then some wPage3
  else none

/-- Fixture fetcher where only page 1 is reachable. -/
def wFetch3 : String → Option ListingPage := fun u =>
  if u = "u1" then some wPage1 else none

/-- Fixture sidebar anchors: a well-formed category followed by an anchor
with no `href` attribute. -/
def wAnchors : List CatAnchor :=
  [{ text := "Travel", href := some "catalogue/category/books/travel_2/index.html" },
   { text := "Mystery", href := none }]

/-- Fixture record for export witnesses (fields exercise CSV quoting). -/
def wBook1 : BookData :=
  { product_page_url := "http://x/catalogue/a_1/index.html"
    universal_product_code := "u1"
    book_title := "t, with comma"
    price_including_tax := "£1.00"
    price_excluding_tax := "£1.00"
    quantity_available := .I 5
    product_description := "said \"hi\""
    category := "c"
    review_rating := "Three"
    image_url := "http://x/media/i.jpg" }

/-- Second fixture record for export witnesses. -/
def wBook2 : BookData :=
  { product_page_url := "http://x/catalogue/b_2/index.html"
    universal_product_code := "u2"
    book_title := "plain"
    price_including_tax := "£2.00"
    price_excluding_tax := "£2.00"
    quantity_available := .S "In stock"
    product_description := "d"
    category := "c"
    review_rating := "One"
    image_url := "" }

/-- Fixture: a detail page with a parsable availability count. -/
def wSoupQty : Soup :=
  { h1 := some "t", product_info_table := none,
    availability := some "In stock (22 available)",
    product_description_div := some (some "d"), breadcrumb := none,
    star_rating := none, image_container := none }

/-- The record the extractor produces on `wSoupQty`. -/
def wRecQty : BookData :=
  { product_page_url := "u3"
    universal_product_code := ""
    book_title := "t"
    price_including_tax := ""
    price_excluding_tax := ""
    quantity_available := .I 22
    product_description := "d"
    category := ""
    review_rating := ""
    image_url := "" }

/-! ## Helper lemmas about the detail extractor -/

/-- Unfolding of the extractor: the table step runs on the dict after the
title assignment, and the remaining five assignments are record updates. -/
theorem scrape_unfold (url : String) (soup : Soup) :
    scrape_book_details_simple url soup =
      match (match soup.product_info_table with
             | some rows =>
               processTableRows rows
                 { initBookData url with book_title := titleValue soup.h1 "" }
             | none => some { initBookData url with book_title := titleValue soup.h1 "" }) with
      | none => none
      | some bd2 => some { bd2 with
          quantity_available := quantityValue soup.availability bd2.quantity_available,
          product_description := descriptionValue soup.product_description_div,
          category := categoryValue soup.breadcrumb bd2.category,
          review_rating := ratingValue soup.star_rating bd2.review_rating,
          image_url := imageValue url soup.image_container bd2.image_url } := rfl

/-- The header dispatch touches only the three table-sourced fields. -/
theorem dispatchHeader_fields (header value : String) (bd : BookData) :
    (dispatchHeader header value bd).product_page_url = bd.product_page_url ∧
    (dispatchHeader header value bd).book_title = bd.book_title ∧
    (dispatchHeader header value bd).quantity_available = bd.quantity_available ∧
    (dispatchHeader header value bd).product_description = bd.product_description ∧
    (dispatchHeader header value bd).category = bd.category ∧
    (dispatchHeader header value bd).review_rating = bd.review_rating ∧
    (dispatchHeader header value bd).image_url = bd.image_url := by
  unfold dispatchHeader
  split
  · exact ⟨rfl, rfl, rfl, rfl, rfl, rfl, rfl⟩
  · split
    · exact ⟨rfl, rfl, rfl, rfl, rfl, rfl, rfl⟩
    · split
      · exact ⟨rfl, rfl, rfl, rfl, rfl, rfl, rfl⟩
      · exact ⟨rfl, rfl, rfl, rfl, rfl, rfl, rfl⟩

/-- When every row has both cells, the table loop succeeds and touches only
the three table-sourced fields. -/
theorem processTableRows_ok : ∀ (rows : List TableRow) (bd : BookData),
    (rows.all fun r => r.th.isSome && r.td.isSome) = true →
    ∃ bd2, processTableRows rows bd = some bd2 ∧
      bd2.product_page_url = bd.product_page_url ∧
      bd2.book_title = bd.book_title ∧
      bd2.quantity_available = bd.quantity_available ∧
      bd2.product_description = bd.product_description ∧
      bd2.category = bd.category ∧
      bd2.review_rating = bd.review_rating ∧
      bd2.image_url = bd.image_url := by
  intro rows
  induction rows with
  | nil =>
    intro bd _
    exact ⟨bd, rfl, rfl, rfl, rfl, rfl, rfl, rfl, rfl⟩
  | cons row rest ih =>
    intro bd hall
    simp only [List.all_cons, Bool.and_eq_true] at hall
    obtain ⟨⟨hth, htd⟩, hrest⟩ := hall
    obtain ⟨header, hh⟩ := Option.isSome_iff_exists.mp hth
    obtain ⟨value, hv⟩ := Option.isSome_iff_exists.mp htd
    obtain ⟨bd2, heq, p1, p2, p3, p4, p5, p6, p7⟩ :=
      ih (dispatchHeader header value bd) hrest
    obtain ⟨d1, d2, d3, d4, d5, d6, d7⟩ := dispatchHeader_fields header value bd
    refine ⟨bd2, ?_, p1.trans d1, p2.trans d2, p3.trans d3, p4.trans d4,
      p5.trans d5, p6.trans d6, p7.trans d7⟩
    simp only [processTableRows, hh, hv]
    exact heq

/-- When every present table row has both cells, the extractor returns a
record whose non-table fields are computed by the per-field steps from their
empty defaults, and whose table fields stay empty when the table is absent. -/
theorem scrape_eq_of_rowsOk (url : String) (soup : Soup) (h : rowsOk soup = true) :
    ∃ bd2 : BookData, scrape_book_details_simple url soup = some
      { product_page_url := url
        universal_product_code := bd2.universal_product_code
        book_title := titleValue soup.h1 ""
        price_including_tax := bd2.price_including_tax
        price_excluding_tax := bd2.price_excluding_tax
        quantity_available := quantityValue soup.availability (.S "")
        product_description := descriptionValue soup.product_description_div
        category := categoryValue soup.breadcrumb ""
        review_rating := ratingValue soup.star_rating ""
        image_url := imageValue url soup.image_container "" } ∧
      (soup.product_info_table = none →
        bd2.universal_product_code = "" ∧ bd2.price_including_tax = "" ∧
        bd2.price_excluding_tax = "") := by
  unfold rowsOk at h
  rw [scrape_unfold]
  cases htab : soup.product_info_table with
  | none =>
    exact ⟨initBookData url, rfl, fun _ => ⟨rfl, rfl, rfl⟩⟩
  | some rows =>
    rw [htab] at h
    obtain ⟨bd2, heq, p1, p2, p3, p4, p5, p6, p7⟩ :=
      processTableRows_ok rows { initBookData url with book_title := titleValue soup.h1 "" } h
    refine ⟨bd2, ?_, by simp [htab]⟩
    simp only [heq]
    simp only [initBookData] at p1 p2 p3 p4 p5 p6 p7
    simp_all

/-! ## C1 — tolerance of missing sub-elements -/

/-- C1 (amended): provided every row of the product-attribute table (when a
table is present) has both its header and value cell, the extractor returns
a non-null record, and the absence of any other markup sub-element (heading,
table, availability block, description anchor, breadcrumb, star-rating
element, image container) only leaves the corresponding field at its
default. -/
theorem scrape_row_tolerance_amended (url : String) (soup : Soup)
    (h : rowsOk soup = true) :
    (scrape_book_details_simple url soup).isSome = true ∧
    (soup.h1 = none →
      (scrape_book_details_simple url soup).map BookData.book_title = some "") ∧
    (soup.product_info_table = none →
      (scrape_book_details_simple url soup).map BookData.universal_product_code = some "" ∧
      (scrape_book_details_simple url soup).map BookData.price_including_tax = some "" ∧
      (scrape_book_details_simple url soup).map BookData.price_excluding_tax = some "") ∧
    (soup.availability = none →
      (scrape_book_details_simple url soup).map BookData.quantity_available = some (.S "")) ∧
    (soup.product_description_div = none →
      (scrape_book_details_simple url soup).map BookData.product_description =
        some "No description found.") ∧
    (soup.breadcrumb = none →
      (scrape_book_details_simple url soup).map BookData.category = some "") ∧
    (soup.star_rating = none →
      (scrape_book_details_simple url soup).map BookData.review_rating = some "") ∧
    (soup.image_container = none →
      (scrape_book_details_simple url soup).map BookData.image_url = some "") := by
  obtain ⟨bd2, hs, htab⟩ := scrape_eq_of_rowsOk url soup h
  rw [hs]
  refine ⟨rfl, ?_, ?_, ?_, ?_, ?_, ?_, ?_⟩
  · intro hx; simp [hx, titleValue]
  · intro hx; obtain ⟨e1, e2, e3⟩ := htab hx; simp [e1, e2, e3]
  · intro hx; simp [hx, quantityValue]
  · intro hx; simp [hx, descriptionValue]
  · intro hx; simp [hx, categoryValue]
  · intro hx; simp [hx, ratingValue]
  · intro hx; simp [hx, imageValue]

/-- C1 counterexample: on a detail page whose markup parses and whose only
defect is one table row without a header cell, the extractor returns `none`
(a null record), contradicting the claim that the absence of a table row's
header or value cell never makes the whole extraction fail. -/
theorem scrape_row_missing_cell_fails :
    scrape_book_details_simple "u" soupBadRow = none := rfl

/-- C1 witness: the amended theorem evaluated on the page with every
sub-element absent. -/
theorem scrape_row_tolerance_amended_witness :
    rowsOk soupAllAbsent = true ∧
    ((scrape_book_details_simple "u" soupAllAbsent).isSome = true ∧
    (soupAllAbsent.h1 = none →
      (scrape_book_details_simple "u" soupAllAbsent).map BookData.book_title = some "") ∧
    (soupAllAbsent.product_info_table = none →
      (scrape_book_details_simple "u" soupAllAbsent).map BookData.universal_product_code = some "" ∧
      (scrape_book_details_simple "u" soupAllAbsent).map BookData.price_including_tax = some "" ∧
      (scrape_book_details_simple "u" soupAllAbsent).map BookData.price_excluding_tax = some "") ∧
    (soupAllAbsent.availability = none →
      (scrape_book_details_simple "u" soupAllAbsent).map BookData.quantity_available = some (.S "")) ∧
    (soupAllAbsent.product_description_div = none →
      (scrape_book_details_simple "u" soupAllAbsent).map BookData.product_description =
        some "No description found.") ∧
    (soupAllAbsent.breadcrumb = none →
      (scrape_book_details_simple "u" soupAllAbsent).map BookData.category = some "") ∧
    (soupAllAbsent.star_rating = none →
      (scrape_book_details_simple "u" soupAllAbsent).map BookData.review_rating = some "") ∧
    (soupAllAbsent.image_container = none →
      (scrape_book_details_simple "u" soupAllAbsent).map BookData.image_url = some "")) :=
  ⟨rfl, scrape_row_tolerance_amended "u" soupAllAbsent rfl⟩

/-! ## C4 — rating Unknown vs empty -/

/-- When no class token of the star-rating element is a vocabulary word, the
for-else loop falls through to `Unknown`. -/
theorem ratingValue_unknown (cls : List String) (dflt : String)
    (h : (cls.all fun c => !(ratingVocab.contains c)) = true) :
    ratingValue (some cls) dflt = "Unknown" := by
  have hn : ratingVocab.find? (fun w => cls.contains w) = none := by
    apply List.find?_eq_none.mpr
    intro w hw hcont
    have hmem : w ∈ cls := by simpa using hcont
    have h2 := List.all_eq_true.mp h w hmem
    simp only [Bool.not_eq_true'] at h2
    have h3 : ratingVocab.contains w = true := by simpa using hw
    rw [h2] at h3
    exact Bool.false_ne_true h3
  simp only [ratingValue]
  rw [hn]

/-- C4: a star-rating element with only unrecognized class tokens yields
`"Unknown"`, no star-rating element at all yields the empty string, and the
two outcomes are distinct. -/
theorem rating_unknown_vs_empty (url : String) (soup : Soup) (h : rowsOk soup = true) :
    (starUnrecognized soup = true →
      (scrape_book_details_simple url soup).map BookData.review_rating = some "Unknown") ∧
    (soup.star_rating = none →
      (scrape_book_details_simple url soup).map BookData.review_rating = some "") ∧
    ("Unknown" : String) ≠ "" := by
  obtain ⟨bd2, hs, _⟩ := scrape_eq_of_rowsOk url soup h
  rw [hs]
  refine ⟨?_, ?_, by decide⟩
  · intro hu
    unfold starUnrecognized at hu
    cases hsr : soup.star_rating with
    | none => rw [hsr] at hu; exact absurd hu (by simp)
    | some cls =>
      rw [hsr] at hu
      simp [ratingValue_unknown cls "" hu]
  · intro hx
    simp [hx, ratingValue]

/-- C4 witness: the theorem evaluated on the page whose star-rating element
carries the unrecognized token list. -/
theorem rating_unknown_vs_empty_witness :
    rowsOk wSoupUnknown = true ∧
    ((starUnrecognized wSoupUnknown = true →
      (scrape_book_details_simple "u" wSoupUnknown).map BookData.review_rating = some "Unknown") ∧
    (wSoupUnknown.star_rating = none →
      (scrape_book_details_simple "u" wSoupUnknown).map BookData.review_rating = some "") ∧
    ("Unknown" : String) ≠ "") :=
  ⟨rfl, rating_unknown_vs_empty "u" wSoupUnknown rfl⟩

/-! ## C5 — description sentinel -/

/-- C5: whether the description anchor is entirely absent or present without
a following sibling paragraph, the description equals the literal sentinel,
which is not the empty string. -/
theorem description_sentinel (url : String) (soup : Soup) (h : rowsOk soup = true)
    (habs : soup.product_description_div = none ∨
      soup.product_description_div = some none) :
    (scrape_book_details_simple url soup).map BookData.product_description =
      some "No description found." ∧ ("No description found." : String) ≠ "" := by
  obtain ⟨bd2, hs, _⟩ := scrape_eq_of_rowsOk url soup h
  rw [hs]
  refine ⟨?_, by decide⟩
  rcases habs with hx | hx <;> simp [hx, descriptionValue]

/-- C5 witness: the theorem evaluated on the page with no description div. -/
theorem description_sentinel_witness :
    (rowsOk soupAllAbsent = true ∧
      (soupAllAbsent.product_description_div = none ∨
        soupAllAbsent.product_description_div = some none)) ∧
    ((scrape_book_details_simple "u2" soupAllAbsent).map BookData.product_description =
      some "No description found." ∧ ("No description found." : String) ≠ "") :=
  ⟨⟨rfl, Or.inl rfl⟩, description_sentinel "u2" soupAllAbsent rfl (Or.inl rfl)⟩

/-! ## C8 — image URL rewrite -/

/-- C8 (amended): the image URL is the part of the page URL before the
`"/catalogue/"` marker, a slash, and the relative path with every
`"../../"` occurrence removed (not only a leading one); a missing container,
image tag or `src` attribute leaves the field empty. -/
theorem image_url_amended (url rel : String) (soup : Soup) (h : rowsOk soup = true) :
    (soup.image_container = some (some (some rel)) →
      (scrape_book_details_simple url soup).map BookData.image_url =
        some (String.mk (splitBeforeCatalogue url.data) ++ "/"
          ++ String.mk (stripDotDots rel.data))) ∧
    ((soup.image_container = none ∨ soup.image_container = some none ∨
        soup.image_container = some (some none)) →
      (scrape_book_details_simple url soup).map BookData.image_url = some "") := by
  obtain ⟨bd2, hs, _⟩ := scrape_eq_of_rowsOk url soup h
  rw [hs]
  constructor
  · intro hx
    simp [hx, imageValue]
  · intro hx
    rcases hx with hx | hx | hx <;> simp [hx, imageValue]

/-- C8 counterexample: for the relative path `"a../../b"` the code removes
the inner `"../../"` occurrence, while stripping only a leading traversal
prefix would keep it, so the two results differ. -/
theorem image_url_strip_leading_fails :
    (scrape_book_details_simple cImageUrl cSoupImage).map BookData.image_url =
      some "http://x/ab" ∧
    specImageUrl cImageUrl "a../../b" = "http://x/a../../b" ∧
    some "http://x/ab" ≠ some (specImageUrl cImageUrl "a../../b") :=
  ⟨rfl, rfl, by decide⟩

/-- C8 witness: the amended theorem evaluated on an ordinary detail page. -/
theorem image_url_amended_witness :
    rowsOk wSoupImage = true ∧
    ((wSoupImage.image_container = some (some (some "../../media/i.jpg")) →
      (scrape_book_details_simple "http://books.toscrape.com/catalogue/x_1/index.html"
          wSoupImage).map BookData.image_url =
        some (String.mk (splitBeforeCatalogue
            "http://books.toscrape.com/catalogue/x_1/index.html".data) ++ "/"
          ++ String.mk (stripDotDots "../../media/i.jpg".data))) ∧
    ((wSoupImage.image_container = none ∨ wSoupImage.image_container = some none ∨
        wSoupImage.image_container = some (some none)) →
      (scrape_book_details_simple "http://books.toscrape.com/catalogue/x_1/index.html"
          wSoupImage).map BookData.image_url = some "")) :=
  ⟨rfl, image_url_amended "http://books.toscrape.com/catalogue/x_1/index.html"
    "../../media/i.jpg" wSoupImage rfl⟩

/-! ## C2, C3 — pagination traversal -/

/-- On a list of well-formed product containers the page loop collects one
resolved link per container, in document order, without raising. -/
theorem collectPodLinks_wellFormed (urljoin : String → String → String)
    (page_url : String) : ∀ hrefs : List String,
    collectPodLinks urljoin page_url (hrefs.map mkPod) =
      (hrefs.map (urljoin page_url), false) := by
  intro hrefs
  induction hrefs with
  | nil => rfl
  | cons h rest ih =>
    simp [collectPodLinks, mkPod, ih]

/-- C2: on a three-page category (pages 1 and 2 carry a next link, page 3
does not) with all fetches succeeding, the traversal returns the three
pages' links concatenated page-by-page in document order, each resolved
against the URL of the page it was found on, finishing within three page
visits for any remaining fuel. -/
theorem discover_three_pages (fetch : String → Option ListingPage)
    (urljoin : String → String → String) (u1 : String) (p1 p2 p3 : ListingPage)
    (hrefs1 hrefs2 hrefs3 : List String) (n1 n2 : String) (fuel : Nat)
    (hf1 : fetch u1 = some p1)
    (hp1 : p1.sect = some (hrefs1.map mkPod))
    (hn1 : p1.next = some { a := some { href := some n1 } })
    (hf2 : fetch (urljoin u1 n1) = some p2)
    (hp2 : p2.sect = some (hrefs2.map mkPod))
    (hn2 : p2.next = some { a := some { href := some n2 } })
    (hf3 : fetch (urljoin (urljoin u1 n1) n2) = some p3)
    (hp3 : p3.sect = some (hrefs3.map mkPod))
    (hn3 : p3.next = none) :
    get_all_book_links_in_category fetch urljoin (fuel + 1 + 1 + 1) u1 =
      some (hrefs1.map (urljoin u1) ++
        (hrefs2.map (urljoin (urljoin u1 n1)) ++
          hrefs3.map (urljoin (urljoin (urljoin u1 n1) n2)))) ∧
    (hrefs1.map (urljoin u1) ++
        (hrefs2.map (urljoin (urljoin u1 n1)) ++
          hrefs3.map (urljoin (urljoin (urljoin u1 n1) n2)))).length =
      hrefs1.length + hrefs2.length + hrefs3.length := by
  constructor
  · unfold get_all_book_links_in_category
    simp [get_all_book_links_loop, hf1, hp1, hn1, hf2, hp2, hn2, hf3, hp3, hn3,
      collectPodLinks_wellFormed]
  · simp only [List.length_append, List.length_map]
    omega

/-- C3: when page 1 succeeds and the fetch of page 2 fails, the traversal
returns exactly the links gathered from page 1 and no exception escapes. -/
theorem discover_partial_on_failure (fetch : String → Option ListingPage)
    (urljoin : String → String → String) (u1 : String) (p1 : ListingPage)
    (hrefs1 : List String) (n1 : String) (fuel : Nat)
    (hf1 : fetch u1 = some p1)
    (hp1 : p1.sect = some (hrefs1.map mkPod))
    (hn1 : p1.next = some { a := some { href := some n1 } })
    (hf2 : fetch (urljoin u1 n1) = none) :
    get_all_book_links_in_category fetch urljoin (fuel + 1 + 1) u1 =
      some (hrefs1.map (urljoin u1)) := by
  unfold get_all_book_links_in_category
  simp [get_all_book_links_loop, hf1, hp1, hn1, hf2, collectPodLinks_wellFormed]

/-- C2 witness: the theorem evaluated on the concrete 3-page fixture. -/
theorem discover_three_pages_witness :
    get_all_book_links_in_category wFetch2 wJoin (0 + 1 + 1 + 1) "u1" =
      some ((["a", "b"].map (wJoin "u1")) ++
        ((["c"].map (wJoin (wJoin "u1" "u2"))) ++
          (["d"].map (wJoin (wJoin (wJoin "u1" "u2") "u3"))))) ∧
    ((["a", "b"].map (wJoin "u1")) ++
        ((["c"].map (wJoin (wJoin "u1" "u2"))) ++
          (["d"].map (wJoin (wJoin (wJoin "u1" "u2") "u3"))))).length =
      (["a", "b"] : List String).length + (["c"] : List String).length +
        (["d"] : List String).length :=
  discover_three_pages wFetch2 wJoin "u1" wPage1 wPage2 wPage3
    ["a", "b"] ["c"] ["d"] "u2" "u3" 0
    (by decide) rfl rfl (by decide) rfl rfl (by decide) rfl rfl

/-- C3 witness: the theorem evaluated on the fixture where only page 1 is
reachable. -/
theorem discover_partial_on_failure_witness :
    get_all_book_links_in_category wFetch3 wJoin (0 + 1 + 1) "u1" =
      some (["a", "b"].map (wJoin "u1")) :=
  discover_partial_on_failure wFetch3 wJoin "u1" wPage1 ["a", "b"] "u2" 0
    (by decide) rfl rfl (by decide)

/-! ## C10 — category enumerator is all-or-nothing -/

/-- An anchor without an `href` makes the category loop raise. -/
theorem collectCategories_missing_href (urljoin : String → String → String)
    (main_url : String) : ∀ (anchors : List CatAnchor) (acc : List (String × String)),
    (∃ a ∈ anchors, a.href = none) →
    collectCategories urljoin main_url anchors acc = none := by
  intro anchors
  induction anchors with
  | nil =>
    intro acc h
    rcases h with ⟨a, ha, _⟩
    simp at ha
  | cons a rest ih =>
    intro acc h
    rcases h with ⟨b, hb, hbn⟩
    rcases List.mem_cons.mp hb with rfl | hbrest
    · simp [collectCategories, hbn]
    · cases hah : a.href with
      | none => simp [collectCategories, hah]
      | some rel =>
        simp only [collectCategories, hah]
        exact ih _ ⟨b, hbrest, hbn⟩

/-- C10: when any sidebar anchor lacks an `href`, the enumerator returns the
empty list, discarding every entry accumulated before the malformed
anchor. -/
theorem categories_all_or_nothing (urljoin : String → String → String)
    (main_url : String) (anchors : List CatAnchor)
    (h : ∃ a ∈ anchors, a.href = none) :
    get_all_categories_with_links urljoin main_url
      { side_categories := some (some (some anchors)) } = [] := by
  simp only [get_all_categories_with_links]
  rw [collectCategories_missing_href urljoin main_url anchors [] h]

/-- C10 witness: the theorem evaluated on a sidebar with one well-formed
category followed by an anchor lacking `href`. -/
theorem categories_all_or_nothing_witness :
    (∃ a ∈ wAnchors, a.href = none) ∧
    get_all_categories_with_links wJoin "http://books.toscrape.com/index.html"
      { side_categories := some (some (some wAnchors)) } = [] :=
  ⟨by decide, categories_all_or_nothing wJoin "http://books.toscrape.com/index.html"
    wAnchors (by decide)⟩

/-! ## CSV serialization round trip -/

/-- Unfolding of `parseQuoted` on a cons cell with an arbitrary tail. -/
theorem parseQuoted_cons (c : Char) (rest acc : List Char) :
    parseQuoted (c :: rest) acc =
      if c = '"' then
        match rest with
        | c2 :: rest2 =>
          if c2 = '"' then parseQuoted rest2 (acc ++ ['"']) else (acc, rest)
        | [] => (acc, [])
      else parseQuoted rest (acc ++ [c]) := by
  cases rest <;> simp [parseQuoted]

/-- Reading a quoted body: the escaped field followed by the closing quote
and a remainder not starting with a quote yields the field and remainder. -/
theorem parseQuoted_escape : ∀ (f acc tail : List Char),
    tail.head? ≠ some '"' →
    parseQuoted (escapeQuotes f ++ '"' :: tail) acc = (acc ++ f, tail) := by
  intro f
  induction f with
  | nil =>
    intro acc tail htail
    cases tail with
    | nil => simp [escapeQuotes, parseQuoted]
    | cons c2 rest2 =>
      have hc2 : ¬(c2 = '"') := fun hh => htail (by rw [hh]; rfl)
      simp [escapeQuotes, parseQuoted, hc2]
  | cons c f ih =>
    intro acc tail htail
    by_cases hc : c = '"'
    · subst hc
      simp only [escapeQuotes, eq_self_iff_true, if_true, List.cons_append]
      rw [parseQuoted_cons]
      simp [ih (acc ++ ['"']) tail htail]
    · simp only [escapeQuotes, List.cons_append]
      rw [if_neg hc, List.cons_append, parseQuoted_cons, if_neg hc]
      rw [ih (acc ++ [c]) tail htail]
      simp

/-- Reading an unquoted field: a comma-free field followed by nothing or a
comma yields the field and remainder. -/
theorem parseUnquoted_no_comma : ∀ (f tail : List Char),
    (∀ c ∈ f, c ≠ ',') → (tail = [] ∨ tail.head? = some ',') →
    parseUnquoted (f ++ tail) = (f, tail) := by
  intro f
  induction f with
  | nil =>
    intro tail _ htail
    rcases htail with rfl | hh
    · rfl
    · cases tail with
      | nil => rfl
      | cons c rest =>
        have hc : c = ',' := by simpa using hh
        subst hc
        simp [parseUnquoted]
  | cons c f ih =>
    intro tail hf htail
    have hc : ¬(c = ',') := hf c (List.mem_cons_self c f)
    simp only [List.cons_append, parseUnquoted, if_neg hc, if_false, List.append_eq]
    rw [ih tail (fun x hx => hf x (List.mem_cons_of_mem c hx)) htail]

/-- A field that needs no quoting contains neither delimiter nor quote. -/
theorem not_needsQuoting (f : List Char) (h : needsQuoting f = false) :
    (∀ c ∈ f, c ≠ ',') ∧ (∀ c ∈ f, c ≠ '"') := by
  unfold needsQuoting at h
  rw [List.any_eq_false] at h
  refine ⟨fun c hc heq => ?_, fun c hc heq => ?_⟩ <;>
    (have h2 := h c hc; subst heq; simp at h2)

/-- Reading one serialized field followed by nothing or a comma recovers the
field exactly. -/
theorem parseField_write (f tail : List Char)
    (htail : tail = [] ∨ tail.head? = some ',') :
    parseField (writeField f ++ tail) = (f, tail) := by
  unfold writeField
  by_cases hq : needsQuoting f = true
  · rw [if_pos hq]
    have hsh : ('"' :: (escapeQuotes f ++ ['"'])) ++ tail =
        '"' :: (escapeQuotes f ++ '"' :: tail) := by simp
    rw [hsh]
    have htail2 : tail.head? ≠ some '"' := by
      rcases htail with rfl | hh
      · simp
      · rw [hh]; simp
    simp only [parseField, if_pos rfl]
    rw [parseQuoted_escape f [] tail htail2]
    simp
  · rw [if_neg hq]
    obtain ⟨hcomma, hquote⟩ := not_needsQuoting f (Bool.eq_false_iff.mpr hq)
    cases f with
    | nil =>
      rcases htail with rfl | hh
      · rfl
      · cases tail with
        | nil => rfl
        | cons c rest =>
          have hc : c = ',' := by simpa using hh
          subst hc
          simp [parseField, parseUnquoted]
    | cons c f2 =>
      have hc : ¬(c = '"') := hquote c (List.mem_cons_self c f2)
      simp only [List.cons_append, parseField, if_neg hc]
      have := parseUnquoted_no_comma (c :: f2) tail hcomma htail
      simpa using this

/-- Unfolding of `writeRecordChars` on a record of two or more fields. -/
theorem writeRecordChars_cons2 (f g : List Char) (rest2 : List (List Char)) :
    writeRecordChars (f :: g :: rest2) =
      writeField f ++ ',' :: writeRecordChars (g :: rest2) := rfl

/-- Reading back a serialized record recovers every field, given fuel for
each field. -/
theorem parseFields_write : ∀ (fs : List (List Char)) (fuel : Nat),
    fs ≠ [] → fs.length ≤ fuel →
    parseFieldsFuel fuel (writeRecordChars fs) = fs := by
  intro fs
  induction fs with
  | nil => intro fuel h _; exact absurd rfl h
  | cons f rest ih =>
    intro fuel _ hlen
    cases fuel with
    | zero => simp at hlen
    | succ fuel2 =>
      cases rest with
      | nil =>
        have hpf : parseField (writeField f ++ []) = (f, []) :=
          parseField_write f [] (Or.inl rfl)
        rw [List.append_nil] at hpf
        simp [writeRecordChars, parseFieldsFuel, hpf]
      | cons g rest2 =>
        have hpf := parseField_write f (',' :: writeRecordChars (g :: rest2)) (Or.inr rfl)
        rw [writeRecordChars_cons2]
        simp only [parseFieldsFuel, hpf, eq_self_iff_true, if_true]
        rw [ih fuel2 (by simp) (by simpa using hlen)]

/-- A record has at most one field more than its serialization has
characters (one separator per extra field). -/
theorem length_le_writeRecord : ∀ fs : List (List Char),
    fs.length ≤ (writeRecordChars fs).length + 1 := by
  intro fs
  induction fs with
  | nil => simp
  | cons f rest ih =>
    cases rest with
    | nil => simp [writeRecordChars]
    | cons g rest2 =>
      simp only [writeRecordChars, List.length_append, List.length_cons] at *
      omega

/-- Character-level round trip for a nonempty record. -/
theorem parseRecordChars_write (fs : List (List Char)) (h : fs ≠ []) :
    parseRecordChars (writeRecordChars fs) = fs :=
  parseFields_write fs ((writeRecordChars fs).length + 1) h (length_le_writeRecord fs)

/-- String-level round trip: re-parsing a written record by column position
reproduces every field. -/
theorem parseRecord_writeRecord (fs : List String) (h : fs ≠ []) :
    parseRecord (writeRecord fs) = fs := by
  unfold parseRecord writeRecord
  have hne : fs.map String.data ≠ [] := by
    intro hh
    exact h (List.map_eq_nil.mp hh)
  rw [show (String.mk (writeRecordChars (fs.map String.data))).data =
      writeRecordChars (fs.map String.data) from rfl]
  rw [parseRecordChars_write _ hne, List.map_map]
  have hid : (String.mk ∘ String.data) = id := funext fun s => rfl
  rw [hid, List.map_id]

/-- A digit character for a digit value is an ASCII digit. -/
theorem decDigit_isDigit (d : Nat) (h : d < 10) : isAsciiDigit (decDigit d) = true := by
  interval_cases d <;> decide

/-- Every character of the decimal expansion is an ASCII digit. -/
theorem natToDecAux_digits : ∀ (fuel n : Nat), ∀ c ∈ natToDecAux fuel n,
    isAsciiDigit c = true := by
  intro fuel
  induction fuel with
  | zero => intro n c hc; simp [natToDecAux] at hc
  | succ fuel ih =>
    intro n c hc
    by_cases hn : n < 10
    · simp only [natToDecAux, if_pos hn] at hc
      have hce : c = decDigit n := by simpa using hc
      subst hce
      exact decDigit_isDigit n hn
    · simp only [natToDecAux, if_neg hn] at hc
      rcases List.mem_append.mp hc with hc2 | hc2
      · exact ih (n / 10) c hc2
      · have hce : c = decDigit (n % 10) := by simpa using hc2
        subst hce
        exact decDigit_isDigit _ (Nat.mod_lt n (by omega))

/-- Python `str` of a nonnegative `int` consists of digits only. -/
theorem natToDecimal_digits (n : Nat) : ∀ c ∈ (natToDecimal n).data,
    isAsciiDigit c = true := fun c hc => natToDecAux_digits (n + 1) n c hc

/-! ## C7 — CSV round trip of extracted records -/

/-- C7: for every record the extractor produces, writing it as a CSV row and
re-parsing the row by column position reproduces every field's literal
string value unchanged, and an integer quantity serializes as plain ASCII
digits. -/
theorem csv_round_trip (url : String) (soup : Soup) (rec : BookData)
    (h : scrape_book_details_simple url soup = some rec) :
    parseRecord (rowOf rec) = rowFields rec ∧
    qtyDigitsOk rec.quantity_available = true := by
  constructor
  · exact parseRecord_writeRecord (rowFields rec) (by simp [rowFields])
  · cases hq : rec.quantity_available with
    | S s => rfl
    | I n =>
      simp only [qtyDigitsOk]
      rw [List.all_eq_true]
      intro c hc
      exact natToDecimal_digits n c hc

/-- C7 witness: the theorem evaluated on a page with a parsable availability
count. -/
theorem csv_round_trip_witness :
    scrape_book_details_simple "u3" wSoupQty = some wRecQty ∧
    (parseRecord (rowOf wRecQty) = rowFields wRecQty ∧
      qtyDigitsOk wRecQty.quantity_available = true) :=
  ⟨rfl, csv_round_trip "u3" wSoupQty wRecQty rfl⟩

/-! ## C6 — export sink append semantics -/

/-- C6: exporting two batches in succession to an initially nonexistent or
zero-length file yields exactly one header row followed by the first batch's
rows then the second batch's rows; the second call appends to the first
call's contents without rewriting them, and the first call writes the header
before its rows. -/
theorem export_two_batches (file0 : Option (List String)) (b1 b2 : List BookData)
    (h : file0 = none ∨ file0 = some []) :
    export_books_to_csv b2 (some (export_books_to_csv b1 file0)) =
      headerRow :: (b1.map rowOf ++ b2.map rowOf) ∧
    export_books_to_csv b2 (some (export_books_to_csv b1 file0)) =
      export_books_to_csv b1 file0 ++ b2.map rowOf ∧
    export_books_to_csv b1 file0 = file0.getD [] ++ [headerRow] ++ b1.map rowOf := by
  rcases h with rfl | rfl <;> simp [export_books_to_csv]

/-- C6 witness: the theorem evaluated on two singleton batches and a
nonexistent file. -/
theorem export_two_batches_witness :
    ((none : Option (List String)) = none ∨ (none : Option (List String)) = some []) ∧
    (export_books_to_csv [wBook2] (some (export_books_to_csv [wBook1] none)) =
      headerRow :: ([wBook1].map rowOf ++ [wBook2].map rowOf) ∧
    export_books_to_csv [wBook2] (some (export_books_to_csv [wBook1] none)) =
      export_books_to_csv [wBook1] none ++ [wBook2].map rowOf ∧
    export_books_to_csv [wBook1] none =
      (none : Option (List String)).getD [] ++ [headerRow] ++ [wBook1].map rowOf) :=
  ⟨Or.inl rfl, export_two_batches none [wBook1] [wBook2] (Or.inl rfl)⟩

/-! ## C9 — filename sanitizer -/

/-- C9 (amended): for a category name consisting of ASCII characters, every
character of the sanitized portion lies in `[A-Za-z0-9_-]`.  The ASCII
hypothesis is the domain on which the embedding of the regex class `\w` is
faithful: Python's `\w` is Unicode-aware, so on a non-ASCII name the real
program keeps non-ASCII word characters (for example the accented letter of
`"Café"`) that fall outside `[A-Za-z0-9_-]`, and the charset invariant holds
only on the ASCII domain. -/
theorem sanitize_charset_amended (name : String) (c : Char)
    (hascii : (name.data.all fun b => b.toNat < 128) = true)
    (h : c ∈ (clean_category_name name).data) :
    (c.isAlphanum || c = '_' || c = '-') = true := by
  simp only [clean_category_name] at h
  exact (List.mem_filter.mp h).2

/-- C9 counterexample: the code replaces only the space character before
stripping, so a tab is deleted rather than turned into an underscore as the
whitespace-to-underscore description requires. -/
theorem sanitize_whitespace_fails :
    clean_category_name "a\tb" = "ab" ∧ specSanitizeCategory "a\tb" = "a_b" ∧
    clean_category_name "a\tb" ≠ specSanitizeCategory "a\tb" :=
  ⟨rfl, rfl, by decide⟩

/-- C9 witness: the amended theorem evaluated on an ASCII category name with
a space. -/
theorem sanitize_charset_amended_witness :
    ((("Science Fiction" : String).data.all fun b => b.toNat < 128) = true ∧
      '_' ∈ (clean_category_name "Science Fiction").data) ∧
    (Char.isAlphanum '_' || '_' = '_' || '_' = '-') = true :=
  ⟨⟨by decide, by decide⟩,
    sanitize_charset_amended "Science Fiction" '_' (by decide) (by decide)⟩
